import Mathlib

/-!
Verification of the Voice-Push recording and transmission core.

Shallow embedding of the repository code:
- src/src/utils/mimeTypes.ts        (format negotiation)
- src/src/services/audioRecorder.ts (capture session, chunk buffering)
- the HTTP client service           (payload transmission, response classification)
- src/src/composables/useAudioRecording.ts (recording controller state machine)

Runtime-dependent facts (MediaRecorder.isTypeSupported, the network, the thrown
platform errors) are passed in as explicit parameters, so every theorem is
quantified over all possible runtime behaviours.
-/

namespace VoicePush

/-- AudioFormat from src/src/types: the four selectable audio formats. -/
inductive AudioFormat
  | webm
  | mp3
  | wav
  | ogg
deriving DecidableEq, Repr

/-- RecordingStatus from src/src/types: the controller status shown to the UI. -/
inductive RecordingStatus
  | idle
  | recording
  | transmit
  | success
  | error
deriving DecidableEq, Repr

/-! ## Format negotiation (src/src/utils/mimeTypes.ts) -/

/-- MIME_TYPE_MAP from mimeTypes.ts: candidate codec strings per format, in
priority order. -/
def MIME_TYPE_MAP : AudioFormat → List String
  | .webm => ["audio/webm;codecs=opus", "audio/webm;codecs=vorbis", "audio/webm"]
  | .mp3  => ["audio/mp3", "audio/mpeg"]
  | .wav  => ["audio/wav", "audio/wave", "audio/x-wav"]
  | .ogg  => ["audio/ogg;codecs=opus", "audio/ogg;codecs=vorbis", "audio/ogg"]

/-- The for-loop inside getMimeType: first candidate the runtime reports as
supported, scanning in list order. -/
def findSupported (isTypeSupported : String → Bool) : List String → Option String
  | [] => none
  | m :: rest => if isTypeSupported m then some m else findSupported isTypeSupported rest

/-- getMimeType from mimeTypes.ts, parameterised by the runtime support
predicate MediaRecorder.isTypeSupported. Returns the first supported candidate;
if none is supported it falls back to the FIRST candidate of the list
(the code returns mimeTypes[0]). The error branch fires only for an empty
candidate list. -/
def getMimeType (isTypeSupported : String → Bool) (format : AudioFormat) :
    Except String String :=
  let mimeTypes := MIME_TYPE_MAP format
  if mimeTypes.isEmpty then
    Except.error "Unsupported audio format"
  else
    match findSupported isTypeSupported mimeTypes with
    | some m => Except.ok m
    | none => Except.ok (mimeTypes.headD "")

/-! ## Capture session (src/src/services/audioRecorder.ts) -/

/-- An audio payload: the blob assembled from the buffered chunks. Only the
byte size and the mime tag matter to the spec. -/
structure Blob where
  size : Nat
  type : String
deriving DecidableEq, Repr

/-- Errors surfaced by AudioRecorder.stopRecording, with the message text the
code attaches to each. -/
inductive CaptureError
  | noActiveRecording
  | recordingNotActive
  | emptyRecording
deriving DecidableEq, Repr

/-- The message string the code passes to the rejected Error for each case. -/
def CaptureError.message : CaptureError → String
  | .noActiveRecording => "No active recording"
  | .recordingNotActive => "Recording not active"
  | .emptyRecording => "No audio data recorded"

/-- The dataavailable handler installed by setupRecorderEvents: a chunk is
appended to audioChunks only when its size is positive. -/
def onDataAvailable (audioChunks : List Nat) (size : Nat) : List Nat :=
  if 0 < size then audioChunks ++ [size] else audioChunks

/-- Deliver a sequence of chunks (given by their sizes, in arrival order) to
the dataavailable handler, starting from the current buffer. -/
def deliverAll (audioChunks : List Nat) (incoming : List Nat) : List Nat :=
  incoming.foldl onDataAvailable audioChunks

/-- The observable state of the MediaRecorder at the moment stopRecording is
called: absent, inactive, or active with the buffered chunk sizes and the
negotiated mime type. -/
inductive RecorderHandle
  | noRecorder
  | inactive
  | active (audioChunks : List Nat) (mimeType : String)
deriving DecidableEq, Repr

/-- AudioRecorder.stopRecording: rejects when no recorder exists or it is
inactive; once the stop event fires, rejects with EmptyRecording when the
chunk buffer is empty, otherwise resolves the blob assembled from the chunks,
tagged with the recorder mime type (falling back to audio/webm). -/
def recorderStop : RecorderHandle → Except CaptureError Blob
  | .noRecorder => Except.error CaptureError.noActiveRecording
  | .inactive => Except.error CaptureError.recordingNotActive
  | .active audioChunks mimeType =>
      if audioChunks.isEmpty then
        Except.error CaptureError.emptyRecording
      else
        Except.ok ⟨audioChunks.sum, if mimeType ≠ "" then mimeType else "audio/webm"⟩

/-! ## Transmission client (HTTP client service) -/

/-- TransmissionResult: the value sendAudio resolves with. -/
structure TransmissionResult where
  success : Bool
  status : Nat
  message : String
deriving DecidableEq, Repr

/-- Errors thrown by the HTTP client before or during the request. -/
inductive SendError
  | missingDestination
  | emptyPayload
  | timeout
  | networkError
deriving DecidableEq, Repr

/-- The message attached to each thrown Error in the HTTP client. -/
def SendError.message : SendError → String
  | .missingDestination => "Endpoint URL is required"
  | .emptyPayload => "Audio blob is empty or invalid"
  | .timeout => "Request timeout - the endpoint took too long to respond"
  | .networkError => "Network error occurred while sending audio"

/-- What the body-reading phase of handleResponse observes: a JSON body that
carries a message field, a JSON body without one, a plain text body, or a
parse failure (which keeps the message built so far). -/
inductive ResponseBody
  | jsonWithMessage (msg : String)
  | jsonNoMessage
  | text (t : String)
  | parseFailure
deriving DecidableEq, Repr

/-- Initial result message of handleResponse: response.statusText with the
JS-falsy fallback to the generic text. -/
def initialMessage (statusText : String) : String :=
  if statusText ≠ "" then statusText else "Unknown error"

/-- The try-block of handleResponse: overwrite the message from the body when
one is available. -/
def bodyMessage (base : String) : ResponseBody → String
  | .jsonWithMessage msg => msg
  | .jsonNoMessage => base
  | .text t => if t ≠ "" then t else base
  | .parseFailure => base

/-- response.ok of the fetch API: status in the inclusive range 200..299. -/
def responseOk (status : Nat) : Bool :=
  decide (200 ≤ status ∧ status ≤ 299)

/-- The fixed status-to-message table of HttpClient.getErrorMessage. -/
def statusMessages : Nat → Option String
  | 400 => some "Bad request - the audio file or request format is invalid"
  | 401 => some "Unauthorized - authentication required"
  | 403 => some "Forbidden - access denied to the endpoint"
  | 404 => some "Endpoint not found - check the configured URL"
  | 413 => some "Audio file too large - try a shorter recording"
  | 422 => some "Unprocessable entity - audio format not accepted"
  | 429 => some "Too many requests - please wait before sending again"
  | 500 => some "Server error - the endpoint is experiencing issues"
  | 502 => some "Bad gateway - endpoint server is down or unreachable"
  | 503 => some "Service unavailable - endpoint temporarily unavailable"
  | 504 => some "Gateway timeout - endpoint server took too long to respond"
  | _ => none

/-- HttpClient.getErrorMessage: the fixed table entry when the status is known,
otherwise the original message, otherwise a generic HTTP error line
(JS short-circuit on empty strings). -/
def getErrorMessage (status : Nat) (originalMessage : String) : String :=
  match statusMessages status with
  | some m => m
  | none => if originalMessage ≠ "" then originalMessage else "HTTP error " ++ toString status

/-- HttpClient.handleResponse: classify success from the status code, read the
body for a message, and for non-success statuses enhance the message through
getErrorMessage; for success an empty message falls back to the fixed text. -/
def handleResponse (status : Nat) (statusText : String) (body : ResponseBody) :
    TransmissionResult :=
  let msg := bodyMessage (initialMessage statusText) body
  if responseOk status then
    { success := true
      status := status
      message := if msg ≠ "" then msg else "Audio sent successfully" }
  else
    { success := false, status := status, message := getErrorMessage status msg }

/-- The fixed transmission timeout of HttpClient (30000 ms). -/
def TIMEOUT_MS : Nat := 30000

/-- Behaviour of the network for one request: the response the fetch would
settle with (none = network-level failure) and when it settles, in ms. -/
structure NetDelivery where
  response : Option (Nat × String × ResponseBody)
  latencyMs : Nat
deriving DecidableEq, Repr

/-- HttpClient.makeRequest: a single fetch raced against an abort timer set at
TIMEOUT_MS. When the timer elapses before the fetch settles, the request is
aborted and the AbortError becomes the timeout error; otherwise the fetch
settles with either a response or a network error. -/
def makeRequest (net : NetDelivery) : Except SendError (Nat × String × ResponseBody) :=
  if TIMEOUT_MS < net.latencyMs then
    Except.error SendError.timeout
  else
    match net.response with
    | some r => Except.ok r
    | none => Except.error SendError.networkError

/-- Result of sendAudio, instrumented with how many POST requests the call
issued. -/
structure SendTrace where
  result : Except SendError TransmissionResult
  requestsIssued : Nat
deriving Repr

/-- HttpClient.sendAudio: validation guards (empty endpoint, empty payload)
throw before any request is built or issued; past validation exactly one
request goes out and its outcome is classified by handleResponse. Errors from
makeRequest are rethrown unchanged. -/
def sendAudio (audioBlob : Blob) (endpoint : String) (net : NetDelivery) : SendTrace :=
  if endpoint = "" then
    ⟨Except.error SendError.missingDestination, 0⟩
  else if audioBlob.size = 0 then
    ⟨Except.error SendError.emptyPayload, 0⟩
  else
    match makeRequest net with
    | Except.ok (status, statusText, body) =>
        ⟨Except.ok (handleResponse status statusText body), 1⟩
    | Except.error e => ⟨Except.error e, 1⟩

/-! ## Recording controller (src/src/composables/useAudioRecording.ts) -/

/-- The reactive state owned by useAudioRecording. -/
structure ControllerState where
  isRecording : Bool
  isTransmitting : Bool
  canRecord : Bool
  recordingStatus : RecordingStatus
  errorMessage : String
deriving DecidableEq, Repr

/-- The isActive computed property: recording or transmitting. -/
def isActive (s : ControllerState) : Bool :=
  s.isRecording || s.isTransmitting

/-- setError: store the message and force the error status. (The 5-second
auto-clear timer it arms is a separate later event, not part of this update.) -/
def setError (message : String) (s : ControllerState) : ControllerState :=
  { s with errorMessage := message, recordingStatus := RecordingStatus.error }

/-- clearError: wipe the message; an error status is demoted to idle when
recording is possible, else stays error. -/
def clearError (s : ControllerState) : ControllerState :=
  let s1 := { s with errorMessage := "" }
  if s1.recordingStatus = RecordingStatus.error then
    { s1 with recordingStatus :=
        if s1.canRecord then RecordingStatus.idle else RecordingStatus.error }
  else s1

/-- A JS substring test: true when the pattern occurs in the string. -/
def strContains (s pat : String) : Bool :=
  (s.splitOn pat).length != 1

/-- The error-message classification inside requestMicrophoneAccess. -/
def classifyMicrophoneError (msg : String) : String :=
  if strContains msg "Permission denied" || strContains msg "NotAllowedError" then
    "Microphone access denied. Please allow microphone access and try again."
  else if strContains msg "NotFoundError" || strContains msg "not found" then
    "No microphone found. Please connect a microphone and try again."
  else if strContains msg "NotSupportedError" then
    "Microphone not supported by this browser."
  else msg

/-- requestMicrophoneAccess: on a successful initialize the controller can
record, status idle, message cleared; on failure it cannot record, status
error, message classified from the thrown message. -/
def requestMicrophoneAccess (micResult : Except String Unit) (s : ControllerState) :
    ControllerState :=
  match micResult with
  | Except.ok _ =>
      { s with
        canRecord := true
        recordingStatus := RecordingStatus.idle
        errorMessage := "" }
  | Except.error msg =>
      { s with
        canRecord := false
        recordingStatus := RecordingStatus.error
        errorMessage := classifyMicrophoneError msg }

/-- startRecording of the controller. Parameters: the configured endpoint, the
outcome of the implicit permission request (used only when the controller is
not yet ready), and the outcome of audioRecorder.startRecording. Mirrors the
source order: active guard, endpoint guard, permission bootstrap, then
clearError plus the recording flags before the capture call, rolled back on a
capture failure. -/
def startRecordingCtl (endpoint : String) (micResult : Except String Unit)
    (captureStart : Except String Unit) (s : ControllerState) : ControllerState :=
  if s.isRecording || s.isTransmitting then s
  else if endpoint = "" then setError "Endpoint not configured" s
  else
    let s1 := if !s.canRecord then requestMicrophoneAccess micResult s else s
    if !s1.canRecord then s1
    else
      let s2 := { clearError s1 with
                  isRecording := true
                  recordingStatus := RecordingStatus.recording }
      match captureStart with
      | Except.ok _ => s2
      | Except.error msg =>
          setError msg { s2 with
                         isRecording := false
                         recordingStatus := RecordingStatus.error }

/-- The synchronous head of stopRecording, up to the first await: drop the
recording flag, show the transmit status, raise the transmitting flag. -/
def stopRecordingBegin (s : ControllerState) : ControllerState :=
  { s with
    isRecording := false
    recordingStatus := RecordingStatus.transmit
    isTransmitting := true }

/-- The rest of stopRecording after its first await: finalize capture, send,
and classify; the catch branch converts any failure into the error status with
its message, and the finally branch always drops the transmitting flag. -/
def stopRecordingBody (capture : Except String Blob)
    (send : Blob → Except String TransmissionResult) (s : ControllerState) :
    ControllerState :=
  let s2 :=
    match capture with
    | Except.error msg => setError msg { s with recordingStatus := RecordingStatus.error }
    | Except.ok b =>
        match send b with
        | Except.error msg =>
            setError msg { s with recordingStatus := RecordingStatus.error }
        | Except.ok result =>
            if result.success then
              { s with recordingStatus := RecordingStatus.success }
            else
              setError result.message
                { s with recordingStatus := RecordingStatus.error }
  { s2 with isTransmitting := false }

/-- stopRecording of the controller: a no-op unless currently recording,
otherwise the begin phase followed by the body. -/
def stopRecordingCtl (capture : Except String Blob)
    (send : Blob → Except String TransmissionResult) (s : ControllerState) :
    ControllerState :=
  if !s.isRecording then s
  else stopRecordingBody capture send (stopRecordingBegin s)

/-- The fixed success display window before the auto-revert to idle (2000 ms). -/
def SUCCESS_DISPLAY_MS : Nat := 2000

/-- The callback of the 2-second timer armed on transmission success: revert
to idle only when the status is still success. -/
def successTimerFire (s : ControllerState) : ControllerState :=
  if s.recordingStatus = RecordingStatus.success then
    { s with recordingStatus := RecordingStatus.idle }
  else s

/-- How the controller observes httpClient.sendAudio: a thrown SendError
becomes a thrown message, a resolved TransmissionResult is passed through. -/
def controllerSend (endpoint : String) (net : NetDelivery) (b : Blob) :
    Except String TransmissionResult :=
  match (sendAudio b endpoint net).result with
  | Except.ok r => Except.ok r
  | Except.error e => Except.error e.message

/-! ## Lemmas about format negotiation -/

theorem findSupported_none {sup : String → Bool} :
    ∀ {l : List String}, findSupported sup l = none → ∀ k ∈ l, sup k = false := by
  intro l
  induction l with
  | nil => intro _ k hk; cases hk
  | cons a rest ih =>
      intro h k hk
      by_cases ha : sup a = true
      · simp [findSupported, ha] at h
      · rw [Bool.not_eq_true] at ha
        simp [findSupported, ha] at h
        rcases List.mem_cons.mp hk with hk | hk
        · exact hk ▸ ha
        · exact ih h k hk

theorem findSupported_some {sup : String → Bool} :
    ∀ {l : List String} {m : String}, findSupported sup l = some m →
      ∃ pre post, l = pre ++ m :: post ∧ (∀ k ∈ pre, sup k = false) ∧ sup m = true := by
  intro l
  induction l with
  | nil => intro m h; simp [findSupported] at h
  | cons a rest ih =>
      intro m h
      by_cases ha : sup a = true
      · simp [findSupported, ha] at h
        exact ⟨[], rest, by simp [h], by simp, h ▸ ha⟩
      · rw [Bool.not_eq_true] at ha
        simp [findSupported, ha] at h
        obtain ⟨pre, post, hl, hpre, hm⟩ := ih h
        refine ⟨a :: pre, post, by simp [hl], ?_, hm⟩
        intro k hk
        rcases List.mem_cons.mp hk with hk | hk
        · exact hk ▸ ha
        · exact hpre k hk

theorem mimeTypeMap_ne_empty (fmt : AudioFormat) :
    (MIME_TYPE_MAP fmt).isEmpty = false := by
  cases fmt <;> rfl

/-- Unfold getMimeType past its non-emptiness guard, which holds for every
format. -/
theorem getMimeType_eq (sup : String → Bool) (fmt : AudioFormat) :
    getMimeType sup fmt =
      match findSupported sup (MIME_TYPE_MAP fmt) with
      | some m => Except.ok m
      | none => Except.ok ((MIME_TYPE_MAP fmt).headD "") := by
  cases fmt <;> rfl

/-- The full behaviour of getMimeType for any runtime support predicate: the
result is the candidate at some position of the priority list, every earlier
candidate is unsupported, and the candidate is either itself supported or - when
nothing is supported - the first (highest-priority) element of the list. -/
theorem getMimeType_spec (sup : String → Bool) (fmt : AudioFormat) :
    ∃ pre m post,
      MIME_TYPE_MAP fmt = pre ++ m :: post ∧
      getMimeType sup fmt = Except.ok m ∧
      (∀ k ∈ pre, sup k = false) ∧
      (sup m = true ∨ (pre = [] ∧ ∀ k ∈ MIME_TYPE_MAP fmt, sup k = false)) := by
  have hne := mimeTypeMap_ne_empty fmt
  cases hfind : findSupported sup (MIME_TYPE_MAP fmt) with
  | none =>
      have hall := findSupported_none hfind
      obtain ⟨a, rest, hl⟩ : ∃ a rest, MIME_TYPE_MAP fmt = a :: rest := by
        cases h : MIME_TYPE_MAP fmt with
        | nil => rw [h] at hne; simp at hne
        | cons a rest => exact ⟨a, rest, rfl⟩
      refine ⟨[], a, rest, hl, ?_, by simp, Or.inr ⟨rfl, hall⟩⟩
      rw [getMimeType_eq sup fmt, hfind, hl]
      rfl
  | some m =>
      obtain ⟨pre, post, hl, hpre, hm⟩ := findSupported_some hfind
      refine ⟨pre, m, post, hl, ?_, hpre, Or.inl hm⟩
      rw [getMimeType_eq sup fmt, hfind]

/-! ## Claim theorems for format negotiation -/

/-- C4 counterexample: with a runtime that supports none of the candidates,
getMimeType for webm returns the FIRST (highest-priority) candidate
audio/webm;codecs=opus, not the last (lowest-priority) candidate audio/webm
that the claim names as the fallback. -/
theorem vc_C4_counterexample :
    getMimeType (fun _ => false) AudioFormat.webm = Except.ok "audio/webm;codecs=opus" ∧
    (MIME_TYPE_MAP AudioFormat.webm).getLast? = some "audio/webm" ∧
    ("audio/webm;codecs=opus" : String) ≠ "audio/webm" := by
  refine ⟨rfl, rfl, ?_⟩
  decide

/-- C4, amended: getMimeType iterates the format candidate codec strings in
fixed priority order and returns the first one the runtime reports as
supported; when the runtime reports none as supported it returns the
HIGHEST-priority (first) candidate as a best-effort fallback, and it never
fails for a valid format. -/
theorem vc_C4_amended (sup : String → Bool) (fmt : AudioFormat) :
    ∃ pre m post,
      MIME_TYPE_MAP fmt = pre ++ m :: post ∧
      getMimeType sup fmt = Except.ok m ∧
      (∀ k ∈ pre, sup k = false) ∧
      (sup m = true ∨ (pre = [] ∧ ∀ k ∈ MIME_TYPE_MAP fmt, sup k = false)) :=
  getMimeType_spec sup fmt

/-- C10: getMimeType is total over the four AudioFormat values - every
candidate list is non-empty, the error branch never fires, and the returned
string is always an element of the candidate list of that format. -/
theorem vc_C10 (sup : String → Bool) (fmt : AudioFormat) :
    (MIME_TYPE_MAP fmt).isEmpty = false ∧
    ∃ m, getMimeType sup fmt = Except.ok m ∧ m ∈ MIME_TYPE_MAP fmt := by
  refine ⟨mimeTypeMap_ne_empty fmt, ?_⟩
  obtain ⟨pre, m, post, hl, hok, -, -⟩ := getMimeType_spec sup fmt
  exact ⟨m, hok, by rw [hl]; simp⟩

/-! ## Lemmas about the chunk buffer -/

theorem deliverAll_eq_filter (audioChunks incoming : List Nat) :
    deliverAll audioChunks incoming
      = audioChunks ++ incoming.filter (fun s => decide (0 < s)) := by
  induction incoming generalizing audioChunks with
  | nil => simp [deliverAll]
  | cons s rest ih =>
      simp only [deliverAll, List.foldl_cons] at *
      rw [ih (onDataAvailable audioChunks s)]
      by_cases hs : 0 < s
      · simp [onDataAvailable, hs, List.filter_cons]
      · simp [onDataAvailable, hs, List.filter_cons]

theorem filter_pos_sum (l : List Nat) :
    (l.filter (fun s => decide (0 < s))).sum = l.sum := by
  induction l with
  | nil => rfl
  | cons s rest ih =>
      by_cases hs : 0 < s
      · simp [List.filter_cons, hs, ih]
      · have h0 : s = 0 := Nat.eq_zero_of_not_pos hs
        simp [List.filter_cons, hs, ih, h0]

theorem filter_pos_sum_pos {l : List Nat}
    (h : (l.filter (fun s => decide (0 < s))).isEmpty = false) :
    0 < (l.filter (fun s => decide (0 < s))).sum := by
  cases hf : l.filter (fun s => decide (0 < s)) with
  | nil => rw [hf] at h; simp at h
  | cons a t =>
      have ha : a ∈ l.filter (fun s => decide (0 < s)) := by rw [hf]; simp
      have hpos : 0 < a := by simpa using (List.mem_filter.mp ha).2
      rw [List.sum_cons]
      omega

/-- Inversion for a successful recorderStop on an active handle: the buffer was
non-empty and the blob size is the chunk sum. -/
theorem recorderStop_ok {audioChunks : List Nat} {mt : String} {b : Blob}
    (h : recorderStop (RecorderHandle.active audioChunks mt) = Except.ok b) :
    audioChunks.isEmpty = false ∧ b.size = audioChunks.sum := by
  obtain ⟨bs, bt⟩ := b
  by_cases he : audioChunks.isEmpty = true
  · simp [recorderStop, he] at h
  · rw [Bool.not_eq_true] at he
    simp [recorderStop, he, Blob.mk.injEq] at h
    exact ⟨he, h.1.symm⟩

/-! ## Claim theorems for the capture session -/

/-- C3: a capture that buffered zero chunks makes AudioRecorder.stopRecording
fail with the EmptyRecording error (message: No audio data recorded), and a
capture fed only through the dataavailable handler can never resolve with a
zero-byte payload. -/
theorem vc_C3 :
    (∀ mt : String,
       recorderStop (RecorderHandle.active [] mt)
         = Except.error CaptureError.emptyRecording) ∧
    CaptureError.emptyRecording.message = "No audio data recorded" ∧
    (∀ (incoming : List Nat) (mt : String) (b : Blob),
       recorderStop (RecorderHandle.active (deliverAll [] incoming) mt) = Except.ok b →
       0 < b.size) := by
  refine ⟨fun mt => rfl, rfl, ?_⟩
  intro incoming mt b hb
  obtain ⟨hne, hsize⟩ := recorderStop_ok hb
  have h1 : deliverAll [] incoming = incoming.filter (fun s => decide (0 < s)) := by
    simpa using deliverAll_eq_filter [] incoming
  rw [h1] at hne
  rw [hsize, h1]
  exact filter_pos_sum_pos hne

/-- C3 witness: concrete empty and non-empty captures. -/
theorem vc_C3_witness :
    recorderStop (RecorderHandle.active [] "audio/webm")
      = Except.error CaptureError.emptyRecording ∧
    0 < Blob.size ⟨2048, "audio/webm"⟩ :=
  ⟨vc_C3.1 "audio/webm",
   vc_C3.2.2 [1024, 1024] "audio/webm" ⟨2048, "audio/webm"⟩ rfl⟩

/-- C8: the buffer built by the dataavailable handler is exactly the positive
sizes of the delivered chunks in arrival order, zero-size chunks are never
appended, and a finalized payload has byte size equal to the sum of all
delivered chunk sizes. -/
theorem vc_C8 (sizes : List Nat) (mt : String) :
    deliverAll [] sizes = sizes.filter (fun s => decide (0 < s)) ∧
    0 ∉ deliverAll [] sizes ∧
    (∀ b : Blob,
       recorderStop (RecorderHandle.active (deliverAll [] sizes) mt) = Except.ok b →
       b.size = sizes.sum) := by
  have h1 : deliverAll [] sizes = sizes.filter (fun s => decide (0 < s)) := by
    simpa using deliverAll_eq_filter [] sizes
  refine ⟨h1, ?_, ?_⟩
  · rw [h1]
    intro hmem
    have := (List.mem_filter.mp hmem).2
    simp at this
  · intro b hb
    obtain ⟨-, hsize⟩ := recorderStop_ok hb
    rw [hsize, h1, filter_pos_sum]

/-- C8 witness: the happy-path scenario of the spec, two 1024-byte chunks with
a zero-size chunk in between, payload size 2048. -/
theorem vc_C8_witness :
    deliverAll [] [1024, 0, 1024] = [1024, 1024] ∧
    Blob.size ⟨2048, "audio/webm"⟩ = List.sum [1024, 0, 1024] :=
  ⟨(vc_C8 [1024, 0, 1024] "audio/webm").1,
   (vc_C8 [1024, 0, 1024] "audio/webm").2.2 ⟨2048, "audio/webm"⟩ rfl⟩

/-! ## Claim theorems for the transmission client -/

/-- C5: the result success flag is true exactly for status codes in 200..299;
status 404 always yields the fixed endpoint-not-found explanation and status
500 the fixed server-error explanation, whatever the server sent in the body;
statuses outside the fixed table fall back to the body-or-status-line message
or the generic HTTP error line. -/
theorem vc_C5 :
    (∀ (status : Nat) (statusText : String) (body : ResponseBody),
       ((handleResponse status statusText body).success = true ↔
         (200 ≤ status ∧ status ≤ 299))) ∧
    (∀ (statusText : String) (body : ResponseBody),
       (handleResponse 404 statusText body).message
         = "Endpoint not found - check the configured URL") ∧
    (∀ (statusText : String) (body : ResponseBody),
       (handleResponse 500 statusText body).message
         = "Server error - the endpoint is experiencing issues") ∧
    (∀ (status : Nat) (statusText : String) (body : ResponseBody),
       statusMessages status = none → responseOk status = false →
       (handleResponse status statusText body).message =
         (if bodyMessage (initialMessage statusText) body ≠ ""
          then bodyMessage (initialMessage statusText) body
          else "HTTP error " ++ toString status)) := by
  refine ⟨?_, ?_, ?_, ?_⟩
  · intro status statusText body
    by_cases h : 200 ≤ status ∧ status ≤ 299
    · have hok : responseOk status = true := by simpa [responseOk] using h
      simp [handleResponse, hok, h]
    · have hok : responseOk status = false := by simpa [responseOk] using h
      simp [handleResponse, hok, h]
  · intro statusText body
    rfl
  · intro statusText body
    rfl
  · intro status statusText body hnone hok
    simp [handleResponse, hok, getErrorMessage, hnone]

/-- C5 witness: concrete responses at statuses 404, 500, 204 and 418. -/
theorem vc_C5_witness :
    (handleResponse 404 "Not Found" (ResponseBody.jsonWithMessage "custom server text")).message
      = "Endpoint not found - check the configured URL" ∧
    (handleResponse 500 "Internal Server Error" (ResponseBody.text "boom")).message
      = "Server error - the endpoint is experiencing issues" ∧
    (handleResponse 204 "No Content" ResponseBody.parseFailure).success = true ∧
    (handleResponse 418 "Teapot" ResponseBody.jsonNoMessage).message = "Teapot" :=
  ⟨vc_C5.2.1 "Not Found" (ResponseBody.jsonWithMessage "custom server text"),
   vc_C5.2.2.1 "Internal Server Error" (ResponseBody.text "boom"),
   (vc_C5.1 204 "No Content" ResponseBody.parseFailure).mpr (by decide),
   (vc_C5.2.2.2 418 "Teapot" ResponseBody.jsonNoMessage rfl rfl).trans (by decide)⟩

/-- C6: an empty destination URL fails with MissingDestination and a zero-size
payload fails with EmptyPayload, in both cases with zero requests issued, so
no network I/O happens. -/
theorem vc_C6 :
    (∀ (b : Blob) (net : NetDelivery),
       sendAudio b "" net = ⟨Except.error SendError.missingDestination, 0⟩) ∧
    (∀ (b : Blob) (endpoint : String) (net : NetDelivery),
       endpoint ≠ "" → b.size = 0 →
       sendAudio b endpoint net = ⟨Except.error SendError.emptyPayload, 0⟩) := by
  refine ⟨fun b net => rfl, ?_⟩
  intro b endpoint net he hb
  simp [sendAudio, he, hb]

/-- C6 witness: a concrete zero-size payload against a configured endpoint. -/
theorem vc_C6_witness :
    sendAudio ⟨0, "audio/webm"⟩ "https://example.com/webhook" ⟨none, 10⟩
      = ⟨Except.error SendError.emptyPayload, 0⟩ :=
  vc_C6.2 ⟨0, "audio/webm"⟩ "https://example.com/webhook" ⟨none, 10⟩ (by decide) rfl

/-- C7: past validation exactly one POST request is issued whatever the
network does, the timeout constant is 30000 ms, and when the timer elapses
before the fetch settles the call fails with the Timeout error. -/
theorem vc_C7 :
    TIMEOUT_MS = 30000 ∧
    (∀ (b : Blob) (endpoint : String) (net : NetDelivery),
       endpoint ≠ "" → b.size ≠ 0 →
       (sendAudio b endpoint net).requestsIssued = 1) ∧
    (∀ (b : Blob) (endpoint : String) (net : NetDelivery),
       endpoint ≠ "" → b.size ≠ 0 → TIMEOUT_MS < net.latencyMs →
       (sendAudio b endpoint net).result = Except.error SendError.timeout) := by
  refine ⟨rfl, ?_, ?_⟩
  · intro b endpoint net he hb
    cases hm : makeRequest net with
    | ok v =>
        obtain ⟨s, t, bo⟩ := v
        simp [sendAudio, he, hb, hm]
    | error e =>
        simp [sendAudio, he, hb, hm]
  · intro b endpoint net he hb ht
    have hm : makeRequest net = Except.error SendError.timeout := by
      simp [makeRequest, ht]
    simp [sendAudio, he, hb, hm]

/-- C7 witness: a 2048-byte payload whose fetch would settle after 40000 ms,
past the 30000 ms timer. -/
theorem vc_C7_witness :
    (sendAudio ⟨2048, "audio/webm"⟩ "https://example.com/webhook"
        ⟨none, 40000⟩).requestsIssued = 1 ∧
    (sendAudio ⟨2048, "audio/webm"⟩ "https://example.com/webhook"
        ⟨none, 40000⟩).result = Except.error SendError.timeout :=
  ⟨vc_C7.2.1 ⟨2048, "audio/webm"⟩ "https://example.com/webhook" ⟨none, 40000⟩
     (by decide) (by decide),
   vc_C7.2.2 ⟨2048, "audio/webm"⟩ "https://example.com/webhook" ⟨none, 40000⟩
     (by decide) (by decide) (by decide)⟩

/-! ## Lemmas about the recording controller -/

/-- startRecording from a ready idle state with a configured endpoint and a
successful capture start: the controller enters the recording state with the
error message cleared. -/
theorem startRecording_idle (em endpoint : String) (micResult : Except String Unit)
    (he : endpoint ≠ "") :
    startRecordingCtl endpoint micResult (Except.ok ())
        ⟨false, false, true, RecordingStatus.idle, em⟩
      = ⟨true, false, true, RecordingStatus.recording, ""⟩ := by
  simp [startRecordingCtl, clearError, he]

/-! ## Claim theorems for the recording controller -/

/-- C1: a successful press/release cycle from a ready idle state passes
through exactly idle, recording, transmit, success and back to idle; the
display window is the fixed 2000 ms and the timer callback changes nothing
unless the status is still success when it fires. -/
theorem vc_C1 (em endpoint : String) (micResult : Except String Unit)
    (b : Blob) (r : TransmissionResult)
    (he : endpoint ≠ "") (hr : r.success = true) :
    (ControllerState.mk false false true RecordingStatus.idle em).recordingStatus
        = RecordingStatus.idle ∧
    startRecordingCtl endpoint micResult (Except.ok ())
        ⟨false, false, true, RecordingStatus.idle, em⟩
      = ⟨true, false, true, RecordingStatus.recording, ""⟩ ∧
    stopRecordingBegin ⟨true, false, true, RecordingStatus.recording, ""⟩
      = ⟨false, true, true, RecordingStatus.transmit, ""⟩ ∧
    stopRecordingCtl (Except.ok b) (fun _ => Except.ok r)
        ⟨true, false, true, RecordingStatus.recording, ""⟩
      = ⟨false, false, true, RecordingStatus.success, ""⟩ ∧
    successTimerFire ⟨false, false, true, RecordingStatus.success, ""⟩
      = ⟨false, false, true, RecordingStatus.idle, ""⟩ ∧
    SUCCESS_DISPLAY_MS = 2000 ∧
    (∀ t : ControllerState, t.recordingStatus ≠ RecordingStatus.success →
       successTimerFire t = t) := by
  refine ⟨rfl, startRecording_idle em endpoint micResult he, rfl, ?_, ?_, rfl, ?_⟩
  · simp [stopRecordingCtl, stopRecordingBegin, stopRecordingBody, hr]
  · simp [successTimerFire]
  · intro t ht
    simp [successTimerFire, ht]

/-- C1 witness: the happy-path scenario - endpoint configured, a 2048-byte
payload, a status-200 result. -/
theorem vc_C1_witness :
    (ControllerState.mk false false true RecordingStatus.idle "").recordingStatus
        = RecordingStatus.idle ∧
    startRecordingCtl "https://example.com/webhook" (Except.ok ()) (Except.ok ())
        ⟨false, false, true, RecordingStatus.idle, ""⟩
      = ⟨true, false, true, RecordingStatus.recording, ""⟩ ∧
    stopRecordingBegin ⟨true, false, true, RecordingStatus.recording, ""⟩
      = ⟨false, true, true, RecordingStatus.transmit, ""⟩ ∧
    stopRecordingCtl (Except.ok ⟨2048, "audio/webm"⟩)
        (fun _ => Except.ok ⟨true, 200, "Audio sent successfully"⟩)
        ⟨true, false, true, RecordingStatus.recording, ""⟩
      = ⟨false, false, true, RecordingStatus.success, ""⟩ ∧
    successTimerFire ⟨false, false, true, RecordingStatus.success, ""⟩
      = ⟨false, false, true, RecordingStatus.idle, ""⟩ ∧
    SUCCESS_DISPLAY_MS = 2000 ∧
    (∀ t : ControllerState, t.recordingStatus ≠ RecordingStatus.success →
       successTimerFire t = t) :=
  vc_C1 "" "https://example.com/webhook" (Except.ok ()) ⟨2048, "audio/webm"⟩
    ⟨true, 200, "Audio sent successfully"⟩ (by decide) rfl

/-- C2: startRecording is a no-op on an active controller (recording or
transmitting), for every permission and capture outcome; stopRecording is a
no-op whenever the controller is not recording, for every capture and send
behaviour. In both cases the state is unchanged in all five fields and the
result does not depend on the capture or network parameters. -/
theorem vc_C2 :
    (∀ (s : ControllerState) (endpoint : String)
       (micResult captureStart : Except String Unit),
       (s.isRecording = true ∨ s.isTransmitting = true) →
       startRecordingCtl endpoint micResult captureStart s = s) ∧
    (∀ (s : ControllerState) (capture : Except String Blob)
       (send : Blob → Except String TransmissionResult),
       s.isRecording = false →
       stopRecordingCtl capture send s = s) := by
  constructor
  · intro s endpoint micResult captureStart h
    have hact : (s.isRecording || s.isTransmitting) = true := by
      rcases h with h | h <;> simp [h]
    simp [startRecordingCtl, hact]
  · intro s capture send h
    simp [stopRecordingCtl, h]

/-- C2 witness: a transmitting state survives startRecording unchanged and an
idle state survives stopRecording unchanged. -/
theorem vc_C2_witness :
    startRecordingCtl "https://example.com/webhook" (Except.ok ()) (Except.ok ())
        ⟨false, true, true, RecordingStatus.transmit, ""⟩
      = ⟨false, true, true, RecordingStatus.transmit, ""⟩ ∧
    stopRecordingCtl (Except.ok ⟨2048, "audio/webm"⟩)
        (fun _ => Except.ok ⟨true, 200, "OK"⟩)
        ⟨false, false, true, RecordingStatus.idle, ""⟩
      = ⟨false, false, true, RecordingStatus.idle, ""⟩ :=
  ⟨vc_C2.1 ⟨false, true, true, RecordingStatus.transmit, ""⟩
     "https://example.com/webhook" (Except.ok ()) (Except.ok ()) (Or.inr rfl),
   vc_C2.2 ⟨false, false, true, RecordingStatus.idle, ""⟩
     (Except.ok ⟨2048, "audio/webm"⟩) (fun _ => Except.ok ⟨true, 200, "OK"⟩) rfl⟩

/-- C9: whenever stopRecording actually runs (the controller was recording),
every branch - success, capture failure or transmission failure - ends with
the transmitting flag false, so isActive collapses to isRecording afterwards. -/
theorem vc_C9 (s : ControllerState) (capture : Except String Blob)
    (send : Blob → Except String TransmissionResult)
    (h : s.isRecording = true) :
    (stopRecordingCtl capture send s).isTransmitting = false ∧
    isActive (stopRecordingCtl capture send s)
      = (stopRecordingCtl capture send s).isRecording := by
  have h2 : stopRecordingCtl capture send s
      = stopRecordingBody capture send (stopRecordingBegin s) := by
    simp [stopRecordingCtl, h]
  rw [h2]
  have ht : (stopRecordingBody capture send (stopRecordingBegin s)).isTransmitting
      = false := rfl
  refine ⟨ht, ?_⟩
  simp [isActive, ht]

/-- C9 witness: a transmission failure branch at a concrete recording state
still ends with the transmitting flag false. -/
theorem vc_C9_witness :
    (stopRecordingCtl (Except.ok ⟨2048, "audio/webm"⟩)
        (fun _ => Except.error "Request timeout - the endpoint took too long to respond")
        ⟨true, false, true, RecordingStatus.recording, ""⟩).isTransmitting = false ∧
    isActive (stopRecordingCtl (Except.ok ⟨2048, "audio/webm"⟩)
        (fun _ => Except.error "Request timeout - the endpoint took too long to respond")
        ⟨true, false, true, RecordingStatus.recording, ""⟩)
      = (stopRecordingCtl (Except.ok ⟨2048, "audio/webm"⟩)
        (fun _ => Except.error "Request timeout - the endpoint took too long to respond")
        ⟨true, false, true, RecordingStatus.recording, ""⟩).isRecording :=
  vc_C9 ⟨true, false, true, RecordingStatus.recording, ""⟩
    (Except.ok ⟨2048, "audio/webm"⟩)
    (fun _ => Except.error "Request timeout - the endpoint took too long to respond") rfl

end VoicePush
